import Mathlib

/-!
Shallow embedding of the kleroteria authentication core
(`src/apps/express-api/src/controllers/users.controller.ts` together with the
database schema in `src/packages/database`).

Modelling conventions:
* Machine state is the database content: three relations (users, sessions,
  tokens) as Lean lists, mirroring the three Postgres tables.
* Timestamps are `Nat` milliseconds (JS `Date.now()`); `new Date(Date.now() + d)`
  becomes `now + d`.
* Randomness (`randomBytes`, `randomInt`-generated codes, bcrypt salts) is
  passed in as explicit parameters (`fresh…` arguments, a `compare` function
  for `bcrypt.compare`).
* Each controller becomes a function from the request data and the database
  state to a result and the next state.  HTTP responses
  `res.status(s).json({success:false, message:m})` become a `failure s m`
  constructor; success responses carry the projected payload the controller
  serialises.
* The `created_at` / `updated_at` columns are filled by database defaults and
  are never read or written by any controller, so they are omitted from the
  embedded rows.
* Collisions of freshly generated 128/256-bit random ids and session tokens
  are not modelled (the schema's primary-key / `sessions_token_unique`
  constraints); the `users` relation's `users_email_unique` and
  `users_phone_unique` constraints ARE modelled on user insertion because the
  controller relies on them.
-/

namespace Kleroteria

/-- `user_role` enum of the schema. -/
inductive UserRole
  | FREE
  | PAID
deriving DecidableEq, Repr

/-- `token_type` enum of the schema. -/
inductive TokenType
  | EMAIL
  | PHONE
deriving DecidableEq, Repr

/-- `token_status` enum of the schema. -/
inductive TokenStatus
  | PENDING
  | EXPIRED
deriving DecidableEq, Repr

/-- A row of the `users` table (timestamp columns omitted, see header). -/
structure DUser where
  id : String
  name : String
  firstName : String
  lastName : String
  email : String
  password : String
  phone : String
  role : UserRole
  emailVerified : Bool
  phoneVerified : Bool
deriving DecidableEq, Repr

/-- A row of the `sessions` table (timestamp columns omitted, see header). -/
structure DSession where
  id : String
  userId : String
  token : String
  ipAddress : Option String
  userAgent : Option String
  expiresAt : Nat
deriving DecidableEq, Repr

/-- A row of the `tokens` table (timestamp columns omitted, see header). -/
structure DToken where
  id : String
  userId : String
  code : String
  type : TokenType
  status : TokenStatus
  expiresAt : Nat
deriving DecidableEq, Repr

/-- The database state: the three relations. -/
structure DB where
  users : List DUser
  sessions : List DSession
  tokens : List DToken
deriving DecidableEq, Repr

/-- The public user projection every success response serialises
(id, firstName, lastName, email, phone, role, emailVerified, phoneVerified —
never the password hash). -/
structure UserPublicView where
  id : String
  firstName : String
  lastName : String
  email : String
  phone : String
  role : UserRole
  emailVerified : Bool
  phoneVerified : Bool
deriving DecidableEq, Repr

/-- Build the public projection of a user row, exactly the fields the
controllers put into `data.user`. -/
def publicView (u : DUser) : UserPublicView :=
  { id := u.id
    firstName := u.firstName
    lastName := u.lastName
    email := u.email
    phone := u.phone
    role := u.role
    emailVerified := u.emailVerified
    phoneVerified := u.phoneVerified }

/-- The token projection the verification controllers put into `data.token`
(timestamp echo columns omitted, see header).  Note it includes the plaintext
`code`. -/
structure TokenView where
  id : String
  userId : String
  code : String
  type : TokenType
  status : TokenStatus
  expiresAt : Nat
deriving DecidableEq, Repr

/-- Build the serialised token payload. -/
def tokenView (t : DToken) : TokenView :=
  { id := t.id
    userId := t.userId
    code := t.code
    type := t.type
    status := t.status
    expiresAt := t.expiresAt }

/-- The e-mail message handed to the notification sender: destination address
and the verification code it carries. -/
structure EmailMsg where
  toAddr : String
  code : String
deriving DecidableEq, Repr

/-- The hard-coded destination address appearing in both `resend.emails.send`
calls of the controller. -/
def hardcodedRecipient : String := "bigtexascompsci@proton.me"

/-- Split a character list at every occurrence of `sep` (the semantics of
`String.splitOn` for a one-character separator, as a structural recursion so
that it evaluates inside `decide`). -/
def splitAtChar (sep : Char) : List Char → List (List Char)
  | [] => [[]]
  | c :: rest =>
    match splitAtChar sep rest with
    | [] => if c == sep then [[], [c]] else [[c]]
    | h :: t => if c == sep then [] :: h :: t else (c :: h) :: t

/-- The `^[^\s@]+@[^\s@]+\.[^\s@]+$` test of the sign-up controller: exactly
one `@`; a non-empty whitespace-free part before it; after it a
whitespace-free part containing a `.` that is neither its first nor its last
character.  (The character class `[^\s@]` admits dots, so the domain part
matches exactly when some `.` occurs strictly inside it.) -/
def emailRegexTest (s : String) : Bool :=
  match splitAtChar '@' s.toList with
  | [lc, dc] =>
      !lc.isEmpty && lc.all (fun c => !c.isWhitespace) &&
      dc.all (fun c => !c.isWhitespace) &&
      ((dc.drop 1).dropLast.contains '.')
  | _ => false

/-- JS `String.prototype.toUpperCase` restricted to the code alphabet:
per-character upper-casing (ASCII).  (`String.toUpper` of the core library is
extensionally the same map but is defined by well-founded recursion, which
does not evaluate inside `decide`; the controllers' inputs are ASCII codes,
where the two agree.) -/
def upperCase (s : String) : String :=
  String.mk (s.toList.map Char.toUpper)

/-- The `^[A-Za-z0-9]+$` test of the verify controller. -/
def alnumTest (s : String) : Bool :=
  !s.toList.isEmpty && s.toList.all fun c => c.isAlpha || c.isDigit

/-- The combined shape validation of the sign-up controller: all five fields
non-empty, e-mail matches the regex, password at least 6 characters. -/
def signUpValid (firstName lastName email phone password : String) : Bool :=
  !(firstName == "" || lastName == "" || email == "" || phone == "" || password == "") &&
  emailRegexTest email &&
  !(decide (password.length < 6))

/-! ### Result types of the boundary operations -/

/-- Result of the sign-up controller. -/
inductive SignUpResult
  | failure (status : Nat) (message : String)
  | created (user : UserPublicView) (sessionToken : String)
deriving DecidableEq, Repr

/-- Result of the sign-in controller. -/
inductive SignInResult
  | failure (status : Nat) (message : String)
  | signedIn (user : UserPublicView) (sessionToken : String)
deriving DecidableEq, Repr

/-- Result of the get-current-user controller. -/
inductive GetUserResult
  | failure (status : Nat) (message : String)
  | ok (user : UserPublicView)
deriving DecidableEq, Repr

/-- Result of the send / resend e-mail-verification controllers.
`reissued` is the idempotent branch returning an existing token with no state
change and no e-mail; `issued` is a fresh issuance carrying the e-mail handed
to the notification sender (the sender's own failure only changes the HTTP
status, never the stored state, and is not claim-relevant). -/
inductive SendEmailResult
  | failure (status : Nat) (message : String)
  | reissued (token : TokenView)
  | issued (token : TokenView) (email : EmailMsg)
deriving DecidableEq, Repr

/-- Result of the verify-e-mail-code controller. -/
inductive VerifyResult
  | failure (status : Nat) (message : String)
  | verified
deriving DecidableEq, Repr

/-! ### The operations (users.controller.ts) -/

/-- The predicate of the "existing valid token" / issuance queries:
`userId = uid AND type = ty AND status = 'PENDING' AND expires_at > now`. -/
def activePendingB (uid : String) (ty : TokenType) (now : Nat) (t : DToken) : Bool :=
  t.userId == uid && t.type == ty && t.status == .PENDING && decide (now < t.expiresAt)

/-- The `UPDATE tokens SET status='EXPIRED' WHERE user_id=uid AND type='EMAIL'`
statement used by both issuance controllers (no status filter: it touches
every EMAIL token of the user). -/
def expireAllEmail (uid : String) (ts : List DToken) : List DToken :=
  ts.map fun t =>
    if t.userId == uid && t.type == .EMAIL then { t with status := .EXPIRED } else t

/-- The fresh verification token both issuance controllers insert:
status PENDING, `expiresAt = now + 10 minutes`. -/
def mkFreshToken (uid code tid : String) (now : Nat) : DToken :=
  { id := tid
    userId := uid
    code := code
    type := .EMAIL
    status := .PENDING
    expiresAt := now + 10 * 60 * 1000 }

/-- `signUp` (users.controller.ts lines 83–204).  `hashedPassword` stands for
the bcrypt hash of `password`; `freshUserId`, `freshSessionId`,
`freshSessionToken` for the `randomBytes` outputs.  The user insert models the
store's `users_email_unique` / `users_phone_unique` / primary-key constraints:
a violating insert throws, is caught, and yields the 500 response. -/
def signUp (db : DB) (now : Nat)
    (firstName lastName email phone password : String)
    (hashedPassword freshUserId freshSessionId freshSessionToken : String)
    (ip ua : Option String) : SignUpResult × DB :=
  if firstName == "" || lastName == "" || email == "" || phone == "" || password == "" then
    (.failure 400 "Bad Request", db)
  else if !emailRegexTest email then
    (.failure 400 "Bad Request", db)
  else if decide (password.length < 6) then
    (.failure 400 "Bad Request", db)
  else
    match db.users.find? (fun u => u.email == email) with
    | some _ => (.failure 409 "Conflict", db)
    | none =>
      let newUser : DUser :=
        { id := freshUserId
          name := firstName ++ " " ++ lastName
          firstName := firstName
          lastName := lastName
          email := email
          password := hashedPassword
          phone := phone
          role := .FREE
          emailVerified := false
          phoneVerified := false }
      if db.users.any (fun u => u.id == freshUserId || u.email == email || u.phone == phone) then
        (.failure 500 "Internal Server Error", db)
      else
        let sess : DSession :=
          { id := freshSessionId
            userId := freshUserId
            token := freshSessionToken
            ipAddress := ip
            userAgent := ua
            expiresAt := now + 7 * 24 * 60 * 60 * 1000 }
        (.created (publicView newUser) freshSessionToken,
         { db with users := db.users ++ [newUser], sessions := db.sessions ++ [sess] })

/-- `signIn` (users.controller.ts lines 207–296).  `compare` stands for
`bcrypt.compare`.  Before inserting the new session the controller deletes the
user's expired sessions (`expires_at < now`). -/
def signIn (db : DB) (now : Nat) (email password : String) (rememberMe : Bool)
    (compare : String → String → Bool)
    (freshSessionId freshSessionToken : String)
    (ip ua : Option String) : SignInResult × DB :=
  if email == "" || password == "" then
    (.failure 400 "Bad Request", db)
  else
    match db.users.find? (fun u => u.email == email) with
    | none => (.failure 401 "Unauthorized", db)
    | some user =>
      if !compare password user.password then
        (.failure 401 "Unauthorized", db)
      else
        let sessionDuration := if rememberMe then 7 * 24 * 60 * 60 * 1000 else 24 * 60 * 60 * 1000
        let pruned := db.sessions.filter fun s =>
          !(s.userId == user.id && decide (s.expiresAt < now))
        let sess : DSession :=
          { id := freshSessionId
            userId := user.id
            token := freshSessionToken
            ipAddress := ip
            userAgent := ua
            expiresAt := now + sessionDuration }
        (.signedIn (publicView user) freshSessionToken,
         { db with sessions := pruned ++ [sess] })

/-- `getCurrentUser` (users.controller.ts lines 325–373).  `authUser` is the
user object the authentication middleware attached to the request; the
controller only reads its `id` and re-queries the store, serialising the
freshly read row. -/
def getCurrentUser (db : DB) (authUser : Option DUser) : GetUserResult :=
  match authUser with
  | none => .failure 401 "Unauthorized"
  | some au =>
    match db.users.find? (fun u => u.id == au.id) with
    | none => .failure 401 "Unauthorized"
    | some currentUser => .ok (publicView currentUser)

/-- `sendEmailVerificationCode` (users.controller.ts lines 376–510).
`freshCode` / `freshTokenId` stand for `generateCode()` / `generateTokenId()`.
Branches in source order: 401 without auth user; 401 when the row re-read
fails; the idempotent return of an existing valid PENDING EMAIL token; else
expire every EMAIL token of the user, insert one fresh PENDING token, and send
the code — to the hard-coded recipient address. -/
def sendEmailVerificationCode (db : DB) (now : Nat) (authUser : Option DUser)
    (freshCode freshTokenId : String) : SendEmailResult × DB :=
  match authUser with
  | none => (.failure 401 "Unauthorized", db)
  | some au =>
    match db.users.find? (fun u => u.id == au.id) with
    | none => (.failure 401 "Unauthorized", db)
    | some currentUser =>
      match db.tokens.find? (activePendingB currentUser.id .EMAIL now) with
      | some existingValidToken => (.reissued (tokenView existingValidToken), db)
      | none =>
        let newToken := mkFreshToken currentUser.id freshCode freshTokenId now
        (.issued (tokenView newToken) { toAddr := hardcodedRecipient, code := freshCode },
         { db with tokens := expireAllEmail currentUser.id db.tokens ++ [newToken] })

/-- `resendEmailVerificationCode` (users.controller.ts lines 513–617): like
the fresh branch of `sendEmailVerificationCode` but unconditional — no
existing-valid-token lookup. -/
def resendEmailVerificationCode (db : DB) (now : Nat) (authUser : Option DUser)
    (freshCode freshTokenId : String) : SendEmailResult × DB :=
  match authUser with
  | none => (.failure 401 "Unauthorized", db)
  | some au =>
    match db.users.find? (fun u => u.id == au.id) with
    | none => (.failure 401 "Unauthorized", db)
    | some currentUser =>
      let newToken := mkFreshToken currentUser.id freshCode freshTokenId now
      (.issued (tokenView newToken) { toAddr := hardcodedRecipient, code := freshCode },
       { db with tokens := expireAllEmail currentUser.id db.tokens ++ [newToken] })

/-- The token lookup of the verify controller, in source column order:
`user_id = uid AND code = code AND type='EMAIL' AND status='PENDING' AND
expires_at > now` (the caller passes the already-uppercased code). -/
def verifyMatchB (uid code : String) (now : Nat) (t : DToken) : Bool :=
  t.userId == uid && t.code == code && t.type == .EMAIL && t.status == .PENDING &&
    decide (now < t.expiresAt)

/-- `verifyEmailVerificationCode` (users.controller.ts lines 620–712).
Shape checks first (`!code`, then length-6 + alphanumeric); then auth user and
row re-read; then the token lookup with the uppercased code.  No match — which
includes a stored-PENDING token whose `expiresAt` has elapsed — yields the
controller's 500 "Internal Server Error" response with no state change.  A
match expires that token, sets the user's `emailVerified`, and defensively
expires every other still-PENDING EMAIL token of the user. -/
def verifyEmailVerificationCode (db : DB) (now : Nat) (authUser : Option DUser)
    (code : String) : VerifyResult × DB :=
  if code == "" then
    (.failure 400 "Bad Request", db)
  else if decide (code.length ≠ 6) || !alnumTest code then
    (.failure 400 "Bad Request", db)
  else
    match authUser with
    | none => (.failure 401 "Unauthorized", db)
    | some au =>
      match db.users.find? (fun u => u.id == au.id) with
      | none => (.failure 401 "Unauthorized", db)
      | some currentUser =>
        match db.tokens.find? (verifyMatchB currentUser.id (upperCase code) now) with
        | none => (.failure 500 "Internal Server Error", db)
        | some validToken =>
          let tokens1 := db.tokens.map fun t =>
            if t.id == validToken.id then { t with status := .EXPIRED } else t
          let users1 := db.users.map fun u =>
            if u.id == currentUser.id then { u with emailVerified := true } else u
          let tokens2 := tokens1.map fun t =>
            if t.userId == currentUser.id && t.type == .EMAIL && t.status == .PENDING then
              { t with status := .EXPIRED }
            else t
          (.verified, { db with users := users1, tokens := tokens2 })

/-! ### The at-most-one-PENDING invariant and a step model of issuance

`sendEmailVerificationCode` performs its storage accesses as separate awaited
statements: (1) the user-row read, (2) the existing-valid-token read, (3) the
supersede `UPDATE`, (4) the `INSERT` of the fresh token.  Nothing in the
controller (no transaction, no lock) groups (3)–(4) or ties them to (2), so
two requests handled by independent workers may interleave these statements
arbitrarily against the shared store.  `issueStep` is exactly this statement
sequence; `runIssuePair` runs two such requests under an explicit schedule. -/

/-- The number of tokens of `(uid, ty)` that are stored PENDING with
`expiresAt` in the future. -/
def validPendingCount (db : DB) (uid : String) (ty : TokenType) (now : Nat) : Nat :=
  (db.tokens.filter (activePendingB uid ty now)).length

/-- The invariant of spec §3: at most one valid PENDING token per
`(userId, purpose)` pair. -/
def atMostOneActivePending (db : DB) (now : Nat) : Prop :=
  ∀ uid ty, validPendingCount db uid ty now ≤ 1

/-- Program counter of one in-flight `sendEmailVerificationCode` request,
one value per awaited storage statement of the controller. -/
inductive IssuePC
  | readUser
  | readToken
  | supersede
  | insert
  | done
deriving DecidableEq, Repr

/-- One in-flight issuance request: its next statement and its pre-generated
fresh code and token id. -/
structure IssueThread where
  pc : IssuePC
  freshCode : String
  freshTokenId : String
deriving DecidableEq, Repr

/-- Execute the next storage statement of one in-flight
`sendEmailVerificationCode` request against the shared store.  Mirrors the
controller branch for branch: a missing user row aborts (401); an existing
valid token aborts with the idempotent 200 (no writes); otherwise the
supersede `UPDATE` runs, then the `INSERT`. -/
def issueStep (now : Nat) (uid : String) (db : DB) (th : IssueThread) :
    DB × IssueThread :=
  match th.pc with
  | .readUser =>
    match db.users.find? (fun u => u.id == uid) with
    | none => (db, { th with pc := .done })
    | some _ => (db, { th with pc := .readToken })
  | .readToken =>
    match db.tokens.find? (activePendingB uid .EMAIL now) with
    | some _ => (db, { th with pc := .done })
    | none => (db, { th with pc := .supersede })
  | .supersede =>
    ({ db with tokens := expireAllEmail uid db.tokens }, { th with pc := .insert })
  | .insert =>
    ({ db with tokens := db.tokens ++ [mkFreshToken uid th.freshCode th.freshTokenId now] },
     { th with pc := .done })
  | .done => (db, th)

/-- Run two concurrent issuance requests for the same user under a schedule:
`true` steps the first thread, `false` the second. -/
def runIssuePair (now : Nat) (uid : String) :
    DB → IssueThread → IssueThread → List Bool → DB
  | db, _, _, [] => db
  | db, t1, t2, true :: rest =>
    let s := issueStep now uid db t1
    runIssuePair now uid s.1 s.2 t2 rest
  | db, t1, t2, false :: rest =>
    let s := issueStep now uid db t2
    runIssuePair now uid s.1 t1 s.2 rest

/-! ### Concrete fixtures used by witnesses and counterexamples -/

/-- A registered user. -/
def alice : DUser :=
  { id := "u1", name := "A B", firstName := "A", lastName := "B", email := "a@x.com",
    password := "hash1", phone := "+1555", role := .FREE,
    emailVerified := false, phoneVerified := false }

/-- Store holding only `alice`, no sessions, no tokens. -/
def dbAlice : DB := { users := [alice], sessions := [], tokens := [] }

/-- The store after `alice`'s e-mail got verified. -/
def aliceVerified : DUser := { alice with emailVerified := true }

/-- Store holding the verified row for `alice`'s id. -/
def dbAliceVerified : DB := { users := [aliceVerified], sessions := [], tokens := [] }

/-- A PENDING EMAIL token of `alice` whose `expiresAt` (500) has already
elapsed at time 1000. -/
def tokExpired : DToken :=
  { id := "t0", userId := "u1", code := "ABC123", type := .EMAIL,
    status := .PENDING, expiresAt := 500 }

/-- Store with `alice` and her expired-but-still-stored-PENDING token. -/
def dbExpiredTok : DB := { users := [alice], sessions := [], tokens := [tokExpired] }

/-- A currently valid PENDING EMAIL token of `alice` (at time 0). -/
def tokActive : DToken :=
  { id := "t0", userId := "u1", code := "ABC123", type := .EMAIL,
    status := .PENDING, expiresAt := 600000 }

/-- Store with `alice` and her valid PENDING token. -/
def dbActiveTok : DB := { users := [alice], sessions := [], tokens := [tokActive] }

/-- An empty store. -/
def dbEmpty : DB := { users := [], sessions := [], tokens := [] }

/-! ### C10 -/

/-- C10: `getCurrentUser` re-reads the user row from the store on every call:
with a resolved auth user whose id has no row it returns the 401 Unauthorized
failure, and when a row exists the returned view is the projection of the row
currently in the store — the attached (possibly stale) middleware user object
contributes nothing but its id. -/
theorem getCurrentUser_rereads_store (db : DB) (au : DUser) :
    (db.users.find? (fun u => u.id == au.id) = none →
      getCurrentUser db (some au) = .failure 401 "Unauthorized") ∧
    (∀ cu, db.users.find? (fun u => u.id == au.id) = some cu →
      getCurrentUser db (some au) = .ok (publicView cu)) := by
  constructor
  · intro h
    simp [getCurrentUser, h]
  · intro cu h
    simp [getCurrentUser, h]

/-- Witness for C10: the middleware attached a stale `alice` row with
`emailVerified = false`, yet the response carries the fresh store row with
`emailVerified = true`; and on a store without the row the same stale session
user yields 401. -/
theorem getCurrentUser_rereads_store_witness :
    getCurrentUser dbAliceVerified (some alice) = .ok (publicView aliceVerified) ∧
    getCurrentUser dbEmpty (some alice) = .failure 401 "Unauthorized" :=
  ⟨(getCurrentUser_rereads_store dbAliceVerified alice).2 aliceVerified (by rfl),
   (getCurrentUser_rereads_store dbEmpty alice).1 (by rfl)⟩

/-! ### C5 -/

/-- C5: sign-in failure is indistinguishable between an unregistered e-mail
and a registered e-mail with a non-matching password: both runs return the
identical `failure 401 "Unauthorized"` result and leave their stores
unchanged. -/
theorem signIn_failure_indistinguishable
    (dbA dbB : DB) (nowA nowB : Nat) (e1 p1 e2 p2 : String) (r1 r2 : Bool)
    (cmp1 cmp2 : String → String → Bool)
    (sid1 tok1 sid2 tok2 : String) (ip1 ua1 ip2 ua2 : Option String) (u : DUser)
    (he1 : e1 ≠ "") (hp1 : p1 ≠ "")
    (he2 : e2 ≠ "") (hp2 : p2 ≠ "")
    (h1 : dbA.users.find? (fun x => x.email == e1) = none)
    (h2 : dbB.users.find? (fun x => x.email == e2) = some u)
    (hc : cmp2 p2 u.password = false) :
    signIn dbA nowA e1 p1 r1 cmp1 sid1 tok1 ip1 ua1 = (.failure 401 "Unauthorized", dbA) ∧
    signIn dbB nowB e2 p2 r2 cmp2 sid2 tok2 ip2 ua2 = (.failure 401 "Unauthorized", dbB) ∧
    (signIn dbA nowA e1 p1 r1 cmp1 sid1 tok1 ip1 ua1).1 =
      (signIn dbB nowB e2 p2 r2 cmp2 sid2 tok2 ip2 ua2).1 := by
  have hA : signIn dbA nowA e1 p1 r1 cmp1 sid1 tok1 ip1 ua1 =
      (.failure 401 "Unauthorized", dbA) := by
    simp [signIn, h1, he1, hp1]
  have hB : signIn dbB nowB e2 p2 r2 cmp2 sid2 tok2 ip2 ua2 =
      (.failure 401 "Unauthorized", dbB) := by
    simp [signIn, h2, he2, hp2, hc]
  exact ⟨hA, hB, by rw [hA, hB]⟩

/-- Witness for C5: an unknown e-mail against the empty store and `alice`'s
e-mail with a failing password comparison yield the identical result. -/
theorem signIn_failure_indistinguishable_witness :
    signIn dbEmpty 0 "z@x.com" "pw" false (fun _ _ => false) "s1" "st1" none none =
      (.failure 401 "Unauthorized", dbEmpty) ∧
    signIn dbAlice 0 "a@x.com" "wrong1" false (fun _ _ => false) "s2" "st2" none none =
      (.failure 401 "Unauthorized", dbAlice) ∧
    (signIn dbEmpty 0 "z@x.com" "pw" false (fun _ _ => false) "s1" "st1" none none).1 =
      (signIn dbAlice 0 "a@x.com" "wrong1" false (fun _ _ => false) "s2" "st2" none none).1 :=
  signIn_failure_indistinguishable dbEmpty dbAlice 0 0 "z@x.com" "pw" "a@x.com" "wrong1"
    false false (fun _ _ => false) (fun _ _ => false) "s1" "st1" "s2" "st2"
    none none none none alice
    (by decide) (by decide) (by decide) (by decide) (by rfl) (by rfl) (by rfl)

/-! ### C3 -/

/-- C3: issuance is idempotent within the validity window — when the user's
existing EMAIL token is stored PENDING with `expiresAt` in the future,
`sendEmailVerificationCode` returns exactly that token and leaves the store
untouched, for any two calls (so both calls return the same code and neither
supersedes nor inserts). -/
theorem send_idempotent_reissue
    (db : DB) (now : Nat) (au cu : DUser) (t : DToken) (c1 i1 c2 i2 : String)
    (hu : db.users.find? (fun u => u.id == au.id) = some cu)
    (ht : db.tokens.find? (activePendingB cu.id .EMAIL now) = some t) :
    sendEmailVerificationCode db now (some au) c1 i1 = (.reissued (tokenView t), db) ∧
    sendEmailVerificationCode db now (some au) c2 i2 = (.reissued (tokenView t), db) := by
  constructor <;> simp [sendEmailVerificationCode, hu, ht]

/-- Witness for C3: with `alice`'s valid PENDING token in the store, two
sends with different fresh randomness both return that token unchanged. -/
theorem send_idempotent_reissue_witness :
    sendEmailVerificationCode dbActiveTok 0 (some alice) "AAAAAA" "tA" =
      (.reissued (tokenView tokActive), dbActiveTok) ∧
    sendEmailVerificationCode dbActiveTok 0 (some alice) "BBBBBB" "tB" =
      (.reissued (tokenView tokActive), dbActiveTok) :=
  send_idempotent_reissue dbActiveTok 0 alice alice tokActive
    "AAAAAA" "tA" "BBBBBB" "tB" (by rfl) (by rfl)

/-! ### C7 -/

/-- C7 (code bug): the verification e-mail is NOT addressed to the requesting
user's stored address.  For `alice` (e-mail `a@x.com`) both a fresh send and a
resend hand the notification sender the hard-coded address
`bigtexascompsci@proton.me`, which differs from `alice.email`. -/
theorem verification_email_goes_to_hardcoded_recipient :
    (sendEmailVerificationCode dbAlice 0 (some alice) "XYZ789" "t9").1 =
      .issued (tokenView (mkFreshToken "u1" "XYZ789" "t9" 0))
        { toAddr := hardcodedRecipient, code := "XYZ789" } ∧
    (resendEmailVerificationCode dbAlice 0 (some alice) "XYZ789" "t9").1 =
      .issued (tokenView (mkFreshToken "u1" "XYZ789" "t9" 0))
        { toAddr := hardcodedRecipient, code := "XYZ789" } ∧
    hardcodedRecipient ≠ alice.email := by
  refine ⟨by rfl, by rfl, by decide⟩

/-! ### C2 -/

/-- C2 (code bug): an authenticated verify request with a shape-valid code
that matches no `(userId, EMAIL, code, PENDING, expiresAt > now)` token — here
because the stored PENDING token's `expiresAt` (500) has elapsed at time
1000 — leaves the store (tokens and `emailVerified`) unchanged, but responds
with the generic 500 "Internal Server Error", not a distinct Rejected
outcome. -/
theorem verify_no_match_is_500_and_state_unchanged :
    verifyEmailVerificationCode dbExpiredTok 1000 (some alice) "ABC123" =
      (.failure 500 "Internal Server Error", dbExpiredTok) ∧
    tokExpired.status = .PENDING ∧ tokExpired.expiresAt < 1000 := by
  refine ⟨by decide, by rfl, by decide⟩

/-! ### C9 -/

/-- C9: every success response of the issuance controllers carries the
plaintext verification code in the serialised token payload: the idempotent
branch echoes the stored token's code, and both fresh-issue branches (send
and resend) echo the newly generated code. -/
theorem issuance_success_payload_contains_plaintext_code
    (db : DB) (now : Nat) (au cu : DUser) (c i : String)
    (hu : db.users.find? (fun u => u.id == au.id) = some cu) :
    (∀ t, db.tokens.find? (activePendingB cu.id .EMAIL now) = some t →
      (sendEmailVerificationCode db now (some au) c i).1 = .reissued (tokenView t) ∧
      (tokenView t).code = t.code) ∧
    (db.tokens.find? (activePendingB cu.id .EMAIL now) = none →
      (sendEmailVerificationCode db now (some au) c i).1 =
        .issued (tokenView (mkFreshToken cu.id c i now))
          { toAddr := hardcodedRecipient, code := c } ∧
      (tokenView (mkFreshToken cu.id c i now)).code = c) ∧
    ((resendEmailVerificationCode db now (some au) c i).1 =
        .issued (tokenView (mkFreshToken cu.id c i now))
          { toAddr := hardcodedRecipient, code := c } ∧
      (tokenView (mkFreshToken cu.id c i now)).code = c) := by
  refine ⟨?_, ?_, ?_⟩
  · intro t ht
    simp [sendEmailVerificationCode, hu, ht, tokenView]
  · intro ht
    simp [sendEmailVerificationCode, hu, ht, tokenView, mkFreshToken]
  · simp [resendEmailVerificationCode, hu, tokenView, mkFreshToken]

/-- Witness for C9 at the store holding `alice`'s valid PENDING token. -/
theorem issuance_success_payload_contains_plaintext_code_witness :
    (∀ t, dbActiveTok.tokens.find? (activePendingB alice.id .EMAIL 0) = some t →
      (sendEmailVerificationCode dbActiveTok 0 (some alice) "CCCCCC" "tC").1 =
        .reissued (tokenView t) ∧
      (tokenView t).code = t.code) ∧
    (dbActiveTok.tokens.find? (activePendingB alice.id .EMAIL 0) = none →
      (sendEmailVerificationCode dbActiveTok 0 (some alice) "CCCCCC" "tC").1 =
        .issued (tokenView (mkFreshToken alice.id "CCCCCC" "tC" 0))
          { toAddr := hardcodedRecipient, code := "CCCCCC" } ∧
      (tokenView (mkFreshToken alice.id "CCCCCC" "tC" 0)).code = "CCCCCC") ∧
    ((resendEmailVerificationCode dbActiveTok 0 (some alice) "CCCCCC" "tC").1 =
        .issued (tokenView (mkFreshToken alice.id "CCCCCC" "tC" 0))
          { toAddr := hardcodedRecipient, code := "CCCCCC" } ∧
      (tokenView (mkFreshToken alice.id "CCCCCC" "tC" 0)).code = "CCCCCC") :=
  issuance_success_payload_contains_plaintext_code dbActiveTok 0 alice alice
    "CCCCCC" "tC" (by rfl)

/-! ### C8 -/

/-- C8: session TTL policy.  A successful sign-up appends a session expiring
at `now + 7 days`; a successful sign-in appends a session expiring at
`now + 7 days` when `rememberMe` and `now + 24 hours` otherwise (after
pruning the user's expired sessions, exactly as the controller does). -/
theorem session_ttl_policy
    (db dbB : DB) (now nowB : Nat)
    (fn ln em ph pw hp uid sid st : String) (ip ua : Option String)
    (emB pwB : String) (u : DUser) (cmp : String → String → Bool)
    (sidB stB : String) (ipB uaB : Option String)
    (hv : signUpValid fn ln em ph pw = true)
    (hconf : db.users.find? (fun x => x.email == em) = none)
    (hins : db.users.any (fun x => x.id == uid || x.email == em || x.phone == ph) = false)
    (heB : emB ≠ "") (hpwB : pwB ≠ "")
    (huB : dbB.users.find? (fun x => x.email == emB) = some u)
    (hcmp : cmp pwB u.password = true) :
    ((signUp db now fn ln em ph pw hp uid sid st ip ua).2.sessions =
      db.sessions ++ [{ id := sid, userId := uid, token := st, ipAddress := ip,
                        userAgent := ua, expiresAt := now + 7 * 24 * 60 * 60 * 1000 }]) ∧
    ∀ rememberMe : Bool,
      (signIn dbB nowB emB pwB rememberMe cmp sidB stB ipB uaB).2.sessions =
        (dbB.sessions.filter fun s => !(s.userId == u.id && decide (s.expiresAt < nowB))) ++
        [{ id := sidB, userId := u.id, token := stB, ipAddress := ipB, userAgent := uaB,
           expiresAt := nowB + if rememberMe then 7 * 24 * 60 * 60 * 1000
                               else 24 * 60 * 60 * 1000 }] := by
  constructor
  · simp only [signUpValid, Bool.and_eq_true, Bool.not_eq_true'] at hv
    obtain ⟨⟨hne, hreg⟩, hlen⟩ := hv
    simp [signUp, hne, hreg, hlen, hconf, hins]
  · intro rememberMe
    simp [signIn, heB, hpwB, huB, hcmp]

/-! ### C6 -/

/-- No two user rows share an e-mail or a phone. -/
def usersUnique (db : DB) : Prop :=
  db.users.Pairwise fun a b => a.email ≠ b.email ∧ a.phone ≠ b.phone

/-- Counterexample for C6: with `alice` (phone `+1555`) registered, a sign-up
with a fresh, shape-valid e-mail but `alice`'s phone does NOT yield Conflict:
the store's `users_phone_unique` constraint rejects the insert and the
controller's catch block answers 500 "Internal Server Error".  No second user
row is created. -/
theorem signUp_duplicate_phone_not_conflict :
    (signUp dbAlice 0 "C" "D" "b@x.com" "+1555" "secret1" "h1" "u2" "s1" "st1"
        none none).1 = .failure 500 "Internal Server Error" ∧
    (signUp dbAlice 0 "C" "D" "b@x.com" "+1555" "secret1" "h1" "u2" "s1" "st1"
        none none).1 ≠ .failure 409 "Conflict" ∧
    (signUp dbAlice 0 "C" "D" "b@x.com" "+1555" "secret1" "h1" "u2" "s1" "st1"
        none none).2.users = [alice] := by
  refine ⟨by rfl, by decide, by rfl⟩

/-- C6 as amended: every sign-up preserves pairwise uniqueness of e-mails and
phones (no second row is ever created for a taken e-mail or phone); a
shape-valid sign-up with an already-registered e-mail yields the 409 Conflict
with the store unchanged; a shape-valid sign-up whose e-mail is fresh but
whose phone is already registered is rejected by the store's unique
constraint and yields the 500 Internal Server Error with the store
unchanged. -/
theorem signUp_uniqueness
    (db : DB) (now : Nat) (fn ln em ph pw hp uid sid st : String)
    (ip ua : Option String)
    (husers : usersUnique db) :
    usersUnique (signUp db now fn ln em ph pw hp uid sid st ip ua).2 ∧
    (signUpValid fn ln em ph pw = true →
      ((∃ u ∈ db.users, u.email = em) →
        signUp db now fn ln em ph pw hp uid sid st ip ua = (.failure 409 "Conflict", db)) ∧
      ((∀ u ∈ db.users, u.email ≠ em) → (∃ u ∈ db.users, u.phone = ph) →
        signUp db now fn ln em ph pw hp uid sid st ip ua =
          (.failure 500 "Internal Server Error", db))) := by
  constructor
  · unfold signUp
    split
    · exact husers
    · split
      · exact husers
      · split
        · exact husers
        · split
          · exact husers
          · split
            · exact husers
            · rename_i hne hreg hlen hfind hany
              simp only [List.any_eq_true, Bool.or_eq_true, beq_iff_eq, not_exists,
                not_and, not_or] at hany
              unfold usersUnique
              rw [List.pairwise_append]
              refine ⟨husers, List.pairwise_singleton _ _, ?_⟩
              intro a ha b hb
              rw [List.mem_singleton] at hb
              subst hb
              have h := hany a ha
              exact ⟨h.1.2, h.2⟩
  · intro hv
    simp only [signUpValid, Bool.and_eq_true, Bool.not_eq_true'] at hv
    obtain ⟨⟨hne, hreg⟩, hlen⟩ := hv
    constructor
    · rintro ⟨u, hu, hue⟩
      have hfind : db.users.find? (fun x => x.email == em) ≠ none := by
        intro hcon
        rw [List.find?_eq_none] at hcon
        exact hcon u hu (by simp [hue])
      match hf : db.users.find? (fun x => x.email == em) with
      | none => exact absurd hf hfind
      | some w => simp [signUp, hne, hreg, hlen, hf]
    · intro hnoem
      rintro ⟨u, hu, hup⟩
      have hfind : db.users.find? (fun x => x.email == em) = none := by
        rw [List.find?_eq_none]
        intro x hx
        simp [hnoem x hx]
      have hany : db.users.any (fun x => x.id == uid || x.email == em || x.phone == ph) = true := by
        rw [List.any_eq_true]
        exact ⟨u, hu, by simp [hup]⟩
      simp [signUp, hne, hreg, hlen, hfind, hany]

/-- Witness for C6: from the store holding `alice`, a duplicate-e-mail
sign-up yields Conflict and a duplicate-phone sign-up yields the 500, both
leaving the store unchanged, and uniqueness is preserved. -/
theorem signUp_uniqueness_witness :
    usersUnique (signUp dbAlice 0 "C" "D" "a@x.com" "+1666" "secret1" "h1" "u2"
        "s1" "st1" none none).2 ∧
    (signUpValid "C" "D" "a@x.com" "+1666" "secret1" = true →
      ((∃ u ∈ dbAlice.users, u.email = "a@x.com") →
        signUp dbAlice 0 "C" "D" "a@x.com" "+1666" "secret1" "h1" "u2" "s1" "st1"
            none none = (.failure 409 "Conflict", dbAlice)) ∧
      ((∀ u ∈ dbAlice.users, u.email ≠ "a@x.com") →
        (∃ u ∈ dbAlice.users, u.phone = "+1666") →
        signUp dbAlice 0 "C" "D" "a@x.com" "+1666" "secret1" "h1" "u2" "s1" "st1"
            none none = (.failure 500 "Internal Server Error", dbAlice))) :=
  signUp_uniqueness dbAlice 0 "C" "D" "a@x.com" "+1666" "secret1" "h1" "u2" "s1" "st1"
    none none (by unfold usersUnique dbAlice; simp)

/-! ### C4 -/

/-- Every token touched by the supersede UPDATE of `(uid, EMAIL)` key ends up
EXPIRED: after `expireAllEmail uid ts`, every EMAIL token of `uid` in the
result has status EXPIRED. -/
lemma expireAllEmail_status (uid : String) (ts : List DToken) :
    ∀ t ∈ expireAllEmail uid ts, t.userId = uid → t.type = TokenType.EMAIL →
      t.status = TokenStatus.EXPIRED := by
  intro t ht hup htp
  simp only [expireAllEmail, List.mem_map] at ht
  obtain ⟨t0, ht0, rfl⟩ := ht
  by_cases hc : (t0.userId == uid && t0.type == TokenType.EMAIL) = true
  · rw [if_pos hc]
  · rw [if_neg hc] at hup htp ⊢
    exact absurd (by simp [hup, htp]) hc

/-- No element of the superseded list matches the verify lookup (the lookup
requires status PENDING and the `(uid, EMAIL)` key). -/
lemma verifyMatchB_expireAllEmail (uid code : String) (now2 : Nat)
    (ts : List DToken) :
    ∀ t ∈ expireAllEmail uid ts, verifyMatchB uid code now2 t = false := by
  intro t ht
  simp only [expireAllEmail, List.mem_map] at ht
  obtain ⟨t0, ht0, rfl⟩ := ht
  by_cases h1 : (t0.userId == uid) = true <;>
    by_cases h2 : (t0.type == TokenType.EMAIL) = true <;>
      simp [verifyMatchB, h1, h2]

/-- The freshly inserted token does not match a verify lookup for a different
code. -/
lemma verifyMatchB_freshToken (uid code c i : String) (now2 now : Nat)
    (hne : code ≠ c) :
    verifyMatchB uid code now2 (mkFreshToken uid c i now) = false := by
  simp [verifyMatchB, mkFreshToken, Ne.symm hne]

/-- C4: `resendEmailVerificationCode` unconditionally supersedes: it marks
every prior EMAIL token of the user EXPIRED and inserts one fresh PENDING
token carrying the newly generated code with `expiresAt = now + 10 minutes`;
afterwards, verifying the old code (its uppercased form being the old token's
stored code, distinct from the fresh one) matches no token and is rejected
with the controller's no-match failure response, leaving the state
unchanged. -/
theorem resend_supersedes_and_old_code_rejected
    (db : DB) (now now2 : Nat) (au cu : DUser) (oldTok : DToken)
    (freshCode freshTokenId oldCode : String)
    (hu : db.users.find? (fun u => u.id == au.id) = some cu)
    (hmem : oldTok ∈ db.tokens) (hou : oldTok.userId = cu.id)
    (hot : oldTok.type = TokenType.EMAIL)
    (hlen : oldCode.length = 6) (halnum : alnumTest oldCode = true)
    (hupper : upperCase oldCode = oldTok.code)
    (hne : freshCode ≠ oldTok.code) :
    resendEmailVerificationCode db now (some au) freshCode freshTokenId =
      (.issued (tokenView (mkFreshToken cu.id freshCode freshTokenId now))
         { toAddr := hardcodedRecipient, code := freshCode },
       { db with tokens := expireAllEmail cu.id db.tokens
                   ++ [mkFreshToken cu.id freshCode freshTokenId now] }) ∧
    (mkFreshToken cu.id freshCode freshTokenId now).code = freshCode ∧
    (mkFreshToken cu.id freshCode freshTokenId now).status = .PENDING ∧
    (mkFreshToken cu.id freshCode freshTokenId now).expiresAt = now + 10 * 60 * 1000 ∧
    (∀ t ∈ expireAllEmail cu.id db.tokens,
       t.userId = cu.id → t.type = TokenType.EMAIL → t.status = TokenStatus.EXPIRED) ∧
    verifyEmailVerificationCode
        { db with tokens := expireAllEmail cu.id db.tokens
                    ++ [mkFreshToken cu.id freshCode freshTokenId now] }
        now2 (some au) oldCode =
      (.failure 500 "Internal Server Error",
       { db with tokens := expireAllEmail cu.id db.tokens
                   ++ [mkFreshToken cu.id freshCode freshTokenId now] }) := by
  have hnotempty : (oldCode == "") = false := by
    rw [beq_eq_false_iff_ne]
    intro hc
    subst hc
    simp at hlen
  have hguard : (decide (oldCode.length ≠ 6) || !alnumTest oldCode) = false := by
    simp [hlen, halnum]
  have hupperne : upperCase oldCode ≠ freshCode := by
    rw [hupper]
    exact fun hc => hne hc.symm
  have hfind : List.find? (verifyMatchB cu.id (upperCase oldCode) now2)
      (expireAllEmail cu.id db.tokens
        ++ [mkFreshToken cu.id freshCode freshTokenId now]) = none := by
    rw [List.find?_eq_none]
    intro x hx
    rw [List.mem_append] at hx
    rcases hx with hx | hx
    · simp [verifyMatchB_expireAllEmail cu.id (upperCase oldCode) now2 db.tokens x hx]
    · rw [List.mem_singleton] at hx
      subst hx
      simp [verifyMatchB_freshToken cu.id (upperCase oldCode) freshCode freshTokenId
        now2 now hupperne]
  refine ⟨?_, rfl, rfl, rfl, expireAllEmail_status cu.id db.tokens, ?_⟩
  · simp [resendEmailVerificationCode, hu]
  · simp [verifyEmailVerificationCode, hnotempty, hguard, hu, hfind]
    exact ⟨hlen, halnum⟩

/-- Witness for C4: `alice` holds the valid PENDING token `ABC123`; a resend
mints `XYZ789`, after which verifying `abc123` (uppercased to the old stored
code) is rejected. -/
theorem resend_supersedes_and_old_code_rejected_witness :
    resendEmailVerificationCode dbActiveTok 0 (some alice) "XYZ789" "t9" =
      (.issued (tokenView (mkFreshToken alice.id "XYZ789" "t9" 0))
         { toAddr := hardcodedRecipient, code := "XYZ789" },
       { dbActiveTok with tokens := expireAllEmail alice.id dbActiveTok.tokens
                   ++ [mkFreshToken alice.id "XYZ789" "t9" 0] }) ∧
    (mkFreshToken alice.id "XYZ789" "t9" 0).code = "XYZ789" ∧
    (mkFreshToken alice.id "XYZ789" "t9" 0).status = .PENDING ∧
    (mkFreshToken alice.id "XYZ789" "t9" 0).expiresAt = 0 + 10 * 60 * 1000 ∧
    (∀ t ∈ expireAllEmail alice.id dbActiveTok.tokens,
       t.userId = alice.id → t.type = TokenType.EMAIL →
         t.status = TokenStatus.EXPIRED) ∧
    verifyEmailVerificationCode
        { dbActiveTok with tokens := expireAllEmail alice.id dbActiveTok.tokens
                    ++ [mkFreshToken alice.id "XYZ789" "t9" 0] }
        0 (some alice) "abc123" =
      (.failure 500 "Internal Server Error",
       { dbActiveTok with tokens := expireAllEmail alice.id dbActiveTok.tokens
                   ++ [mkFreshToken alice.id "XYZ789" "t9" 0] }) :=
  resend_supersedes_and_old_code_rejected dbActiveTok 0 0 alice alice tokActive
    "XYZ789" "t9" "abc123" (by rfl) (by decide) (by rfl) (by rfl) (by rfl)
    (by decide) (by decide) (by decide)

/-! ### C1 -/

/-- A token that went through the supersede UPDATE never satisfies the
valid-PENDING predicate for the superseded key. -/
lemma activePendingB_expireOne (uid : String) (now : Nat) (t : DToken) :
    activePendingB uid .EMAIL now
      (if t.userId == uid && t.type == TokenType.EMAIL
       then { t with status := TokenStatus.EXPIRED } else t) = false := by
  by_cases h1 : (t.userId == uid) = true <;>
    by_cases h2 : (t.type == TokenType.EMAIL) = true <;>
      simp [activePendingB, h1, h2]

/-- After the supersede UPDATE, no valid-PENDING token remains for the
superseded `(uid, EMAIL)` key. -/
lemma filter_expireAllEmail_self (uid : String) (now : Nat) (ts : List DToken) :
    (expireAllEmail uid ts).filter (activePendingB uid .EMAIL now) = [] := by
  induction ts with
  | nil => rfl
  | cons t rest ih =>
    have hcons : expireAllEmail uid (t :: rest) =
        (if t.userId == uid && t.type == TokenType.EMAIL
         then { t with status := TokenStatus.EXPIRED } else t) :: expireAllEmail uid rest := rfl
    rw [hcons, List.filter_cons, activePendingB_expireOne, ih]
    simp

/-- The supersede UPDATE for `(uid, EMAIL)` leaves the valid-PENDING tokens
of every other `(userId, purpose)` key untouched. -/
lemma filter_expireAllEmail_other (uid uid' : String) (ty' : TokenType) (now : Nat)
    (hk : ¬(uid' = uid ∧ ty' = TokenType.EMAIL)) (ts : List DToken) :
    (expireAllEmail uid ts).filter (activePendingB uid' ty' now) =
      ts.filter (activePendingB uid' ty' now) := by
  induction ts with
  | nil => rfl
  | cons t rest ih =>
    have hcons : expireAllEmail uid (t :: rest) =
        (if t.userId == uid && t.type == TokenType.EMAIL
         then { t with status := TokenStatus.EXPIRED } else t) :: expireAllEmail uid rest := rfl
    rw [hcons, List.filter_cons, List.filter_cons, ih]
    by_cases hc : (t.userId == uid && t.type == TokenType.EMAIL) = true
    · obtain ⟨h1, h2⟩ : t.userId = uid ∧ t.type = TokenType.EMAIL := by
        simpa using hc
      have hft : activePendingB uid' ty' now t = false := by
        rcases not_and_or.mp hk with hne | hne
        · simp [activePendingB, h1, Ne.symm hne]
        · simp [activePendingB, h2, Ne.symm hne]
      have hfe : activePendingB uid' ty' now { t with status := TokenStatus.EXPIRED } = false := by
        rcases not_and_or.mp hk with hne | hne
        · simp [activePendingB, h1, Ne.symm hne]
        · simp [activePendingB, h2, Ne.symm hne]
      rw [if_pos hc, hft, hfe]
      simp
    · rw [if_neg hc]

/-- A completed supersede-then-insert leaves at most one valid PENDING token
per key: exactly one for the issued key, and the counts of all other keys
unchanged. -/
lemma freshIssue_preserves_atMostOne (db : DB) (now : Nat) (uid c i : String)
    (h : atMostOneActivePending db now) :
    atMostOneActivePending
      { db with tokens := expireAllEmail uid db.tokens
                  ++ [mkFreshToken uid c i now] } now := by
  intro uid' ty'
  unfold validPendingCount
  simp only [List.filter_append, List.length_append]
  by_cases hk : uid' = uid ∧ ty' = TokenType.EMAIL
  · obtain ⟨h1, h2⟩ := hk
    subst h1
    subst h2
    rw [filter_expireAllEmail_self]
    simp [activePendingB, mkFreshToken]
  · rw [filter_expireAllEmail_other uid uid' ty' now hk]
    have hnew : activePendingB uid' ty' now (mkFreshToken uid c i now) = false := by
      rcases not_and_or.mp hk with hne | hne
      · simp [activePendingB, mkFreshToken, Ne.symm hne]
      · simp [activePendingB, mkFreshToken, Ne.symm hne]
    have hcount := h uid' ty'
    unfold validPendingCount at hcount
    simp [List.filter_cons, hnew]
    exact hcount

/-- C1 as amended: each issuance operation, run to completion in isolation,
preserves the at-most-one-valid-PENDING invariant — the idempotent branch
changes nothing, and the fresh branch first marks every EMAIL token of the
user EXPIRED and then inserts a single new PENDING token.  (The atomicity
part of the claim fails: see the interleaving counterexample.) -/
theorem issuance_preserves_at_most_one_pending
    (db : DB) (now : Nat) (authUser : Option DUser) (c i : String)
    (h : atMostOneActivePending db now) :
    atMostOneActivePending (sendEmailVerificationCode db now authUser c i).2 now ∧
    atMostOneActivePending (resendEmailVerificationCode db now authUser c i).2 now := by
  constructor
  · cases authUser with
    | none => simpa [sendEmailVerificationCode] using h
    | some au =>
      cases hu : db.users.find? (fun u => u.id == au.id) with
      | none => simpa [sendEmailVerificationCode, hu] using h
      | some cu =>
        cases ht : db.tokens.find? (activePendingB cu.id .EMAIL now) with
        | some t => simpa [sendEmailVerificationCode, hu, ht] using h
        | none =>
          have hp := freshIssue_preserves_atMostOne db now cu.id c i h
          simpa [sendEmailVerificationCode, hu, ht] using hp
  · cases authUser with
    | none => simpa [resendEmailVerificationCode] using h
    | some au =>
      cases hu : db.users.find? (fun u => u.id == au.id) with
      | none => simpa [resendEmailVerificationCode, hu] using h
      | some cu =>
        have hp := freshIssue_preserves_atMostOne db now cu.id c i h
        simpa [resendEmailVerificationCode, hu] using hp

/-- Witness for C1 (amended): from the token-free store holding `alice`,
both operations leave at most one valid PENDING token per key. -/
theorem issuance_preserves_at_most_one_pending_witness :
    atMostOneActivePending
      (sendEmailVerificationCode dbAlice 0 (some alice) "AAAAAA" "tA").2 0 ∧
    atMostOneActivePending
      (resendEmailVerificationCode dbAlice 0 (some alice) "AAAAAA" "tA").2 0 :=
  issuance_preserves_at_most_one_pending dbAlice 0 (some alice) "AAAAAA" "tA"
    (fun uid ty => by simp [validPendingCount, dbAlice])

/-- First of the two concurrent issuance requests of the C1 counterexample. -/
def issueThreadA : IssueThread :=
  { pc := .readUser, freshCode := "AAAAAA", freshTokenId := "tA" }

/-- Second of the two concurrent issuance requests of the C1 counterexample. -/
def issueThreadB : IssueThread :=
  { pc := .readUser, freshCode := "BBBBBB", freshTokenId := "tB" }

/-- The alternating schedule: both requests pass the user read and the
existing-valid-token read before either performs its supersede UPDATE, and
both supersedes run before either INSERT. -/
def raceSchedule : List Bool := [true, false, true, false, true, false, true, false]

/-- Counterexample for C1: the supersede-then-insert of the issuance
controllers is two separate unguarded statements, not one atomic unit.  Under
the alternating interleaving of two concurrent `sendEmailVerificationCode`
requests for `alice`, both observe "no active token" and both insert: the
reached store holds TWO valid PENDING `(u1, EMAIL)` tokens, violating the
at-most-one-PENDING invariant the claim asserts. -/
theorem concurrent_issuance_breaks_at_most_one_pending :
    validPendingCount
      (runIssuePair 0 "u1" dbAlice issueThreadA issueThreadB raceSchedule)
      "u1" .EMAIL 0 = 2 ∧
    ¬ atMostOneActivePending
      (runIssuePair 0 "u1" dbAlice issueThreadA issueThreadB raceSchedule) 0 := by
  refine ⟨by decide, fun hcon => absurd (hcon "u1" .EMAIL) (by decide)⟩

/-- Witness for C8: a concrete sign-up gets the 7-day session; `alice`'s
sign-in gets 7 days with rememberMe and 24 hours without. -/
theorem session_ttl_policy_witness :
    ((signUp dbEmpty 0 "A" "B" "a@x.com" "+1555" "secret1" "h1" "u1" "s1" "st1"
        none none).2.sessions =
      dbEmpty.sessions ++
        [{ id := "s1", userId := "u1", token := "st1", ipAddress := none,
           userAgent := none, expiresAt := 0 + 7 * 24 * 60 * 60 * 1000 }]) ∧
    ∀ rememberMe : Bool,
      (signIn dbAlice 0 "a@x.com" "secret1" rememberMe (fun _ _ => true)
          "s2" "st2" none none).2.sessions =
        (dbAlice.sessions.filter fun s =>
          !(s.userId == alice.id && decide (s.expiresAt < 0))) ++
        [{ id := "s2", userId := alice.id, token := "st2", ipAddress := none,
           userAgent := none,
           expiresAt := 0 + if rememberMe then 7 * 24 * 60 * 60 * 1000
                            else 24 * 60 * 60 * 1000 }] :=
  session_ttl_policy dbEmpty dbAlice 0 0 "A" "B" "a@x.com" "+1555" "secret1"
    "h1" "u1" "s1" "st1" none none "a@x.com" "secret1" alice (fun _ _ => true)
    "s2" "st2" none none
    (by decide) (by rfl) (by rfl) (by decide) (by decide) (by rfl) (by rfl)
